import Mathlib

/-!
# Verification of grammarly-mcp core logic

Shallow embedding of the TypeScript sources of the `grammarly-mcp`
repository (threshold policy, IPRoyal password builder, proxy
configuration, Browserbase session manager, and the optimization loop),
together with theorems checking the natural-language specification.

Modelling conventions:
* JavaScript strings are modelled as `List Char` (`Str`); for the ASCII
  data handled here the JS UTF-16 code-unit view and the char-list view
  coincide.
* `string | undefined` / `string | null` fields are `Option Str`;
  JavaScript truthiness (`undefined`, `null`, `""`, `false` are falsy)
  is captured by `truthyStr` / `truthyBool`.
* JS numbers are modelled as `ℚ`: the embedded code only compares scores,
  never performs float arithmetic, so the embedding is exact.
* `async` functions that can reject are modelled as `Except Str`-valued
  functions; external backends (Browserbase, Browser Use, Claude) are
  modelled as oracles supplying the outcome of each call.
-/

namespace GrammarlyMcp

/-- JavaScript strings, modelled as lists of characters. -/
abbrev Str := List Char

/-- JS truthiness of a `string | undefined | null` value:
`undefined`/`null` and the empty string are falsy. -/
def truthyStr : Option Str → Bool
  | none => false
  | some s => !s.isEmpty

/-- JS truthiness of a `boolean | undefined` value. -/
def truthyBool : Option Bool → Bool
  | none => false
  | some b => b

/-- ASCII lowercasing, the effect of JS `String.prototype.toLowerCase`
on the ASCII country codes handled by the config layer. -/
def jsToLowerCase (s : Str) : Str := s.map Char.toLower

/-! ## Grammarly scores (src/src/browser/grammarlyTask.ts, `GrammarlyScoresSchema`) -/

/-- Scores returned by a Grammarly scoring task; `none` means the signal
was unavailable in the UI (JS `null`), not zero. -/
structure GrammarlyScores where
  aiDetectionPercent : Option ℚ
  plagiarismPercent : Option ℚ
  notes : Str
deriving DecidableEq

/-! ## Threshold policy (src/src/grammarlyOptimizer.ts lines 120–146)

```ts
function thresholdsMet(scores, maxAiPercent, maxPlagiarismPercent) {
  const aiAvailable = scores.aiDetectionPercent !== null;
  const plagiarismAvailable = scores.plagiarismPercent !== null;
  if (!aiAvailable && !plagiarismAvailable) { log(...); return false; }
  const aiOk = aiAvailable && scores.aiDetectionPercent !== null
    ? scores.aiDetectionPercent <= maxAiPercent : true;
  const plagiarismOk = plagiarismAvailable && scores.plagiarismPercent !== null
    ? scores.plagiarismPercent <= maxPlagiarismPercent : true;
  return aiOk && plagiarismOk;
}
```
-/

/-- Threshold check of the optimizer: at least one score must be
available; each available score must be at or below its maximum. -/
def thresholdsMet (scores : GrammarlyScores) (maxAiPercent maxPlagiarismPercent : ℚ) : Bool :=
  let aiAvailable := scores.aiDetectionPercent.isSome
  let plagiarismAvailable := scores.plagiarismPercent.isSome
  if !aiAvailable && !plagiarismAvailable then
    false
  else
    let aiOk := match scores.aiDetectionPercent with
      | some a => decide (a ≤ maxAiPercent)
      | none => true
    let plagiarismOk := match scores.plagiarismPercent with
      | some p => decide (p ≤ maxPlagiarismPercent)
      | none => true
    aiOk && plagiarismOk

/-! ## IPRoyal password builder (src/src/config.ts lines 499–518) -/

/-- Options bag of `buildIproyalPassword`. -/
structure IproyalOptions where
  country : Option Str := none
  sessionId : Option Str := none
  sessionLifetime : Option Str := none

/-- The `buildIproyalPassword(basePassword, options)`: pushes
`country-<cc lowercased>`, `session-<id>`, `lifetime-<ttl>` parts (in
that order, each only when the option is truthy) and joins with `_`. -/
def buildIproyalPassword (basePassword : Str) (options : IproyalOptions) : Str :=
  let parts : List Str :=
    [basePassword]
      ++ (if truthyStr options.country then
            ["country-".data ++ jsToLowerCase (options.country.getD [])] else [])
      ++ (if truthyStr options.sessionId then
            ["session-".data ++ options.sessionId.getD []] else [])
      ++ (if truthyStr options.sessionLifetime then
            ["lifetime-".data ++ options.sessionLifetime.getD []] else [])
  (parts.intersperse "_".data).flatten

/-! ## Proxy configuration schema (src/src/config.ts lines 95–122) -/

/-- Proxy type after Zod parsing (`ProxyTypeSchema` defaults to
`browserbase`, so the parsed value is never absent). -/
inductive ProxyType
  | browserbase
  | external
deriving DecidableEq

/-- Parsed shape of `ProxyConfigSchema` (before the `.refine` check). -/
structure ProxyCfg where
  enabled : Bool := true
  country : Option Str := none
  region : Option Str := none
  type : ProxyType := ProxyType.browserbase
  server : Option Str := none
  username : Option Str := none
  password : Option Str := none
  sessionId : Option Str := none
  sessionLifetime : Option Str := none

/-- The `.refine` predicate of `ProxyConfigSchema`:
`data.type !== "external" || (data.server && data.username && data.password)`;
message: "External proxy requires server, username, and password". -/
def proxyConfigRefine (data : ProxyCfg) : Bool :=
  decide (data.type ≠ ProxyType.external) ||
    (truthyStr data.server && truthyStr data.username && truthyStr data.password)

/-! ## Password-building step of `getSessionOptions`
(src/src/config.ts lines 626–644)

```ts
let proxyPassword: string | undefined;
if (proxy?.password) {
  if (proxy.password.includes("_country-") ||
      proxy.password.includes("_session-") ||
      proxy.password.includes("_lifetime-")) {
    proxyPassword = proxy.password;          // use as-is
  } else {
    proxyPassword = buildIproyalPassword(proxy.password, {
      country: proxy.country, sessionId: proxy.sessionId,
      sessionLifetime: proxy.sessionLifetime });
  }
}
```
-/

/-- JS `String.prototype.includes`: `needle` occurs contiguously inside
`haystack`. -/
def containsSubstr (needle : Str) : Str → Bool
  | [] => needle.isEmpty
  | c :: rest => needle.isPrefixOf (c :: rest) || containsSubstr needle rest

/-- The `password.includes(...)` check for already-present IPRoyal params. -/
def hasIproyalParams (password : Str) : Bool :=
  containsSubstr "_country-".data password ||
    containsSubstr "_session-".data password ||
    containsSubstr "_lifetime-".data password

/-- The proxy-password step of `getSessionOptions`: pass the password
through unchanged when it already carries IPRoyal parameters, otherwise
build one from the config's country / sessionId / sessionLifetime. -/
def sessionProxyPassword (proxy : ProxyCfg) : Option Str :=
  if truthyStr proxy.password then
    let pw := proxy.password.getD []
    if hasIproyalParams pw then
      some pw
    else
      some (buildIproyalPassword pw
        { country := proxy.country, sessionId := proxy.sessionId,
          sessionLifetime := proxy.sessionLifetime })
  else
    none

/-! ## Session-manager proxy payload builder
(`BrowserbaseSessionManager.buildProxyConfig`, src/CHANGELOG.md lines 305–354)

```ts
private buildProxyConfig(options?): ProxyConfig {
  if (!options?.proxyEnabled) { return undefined; }
  if (options.proxyType === "external") {
    if (!options.proxyServer) {
      throw new Error("proxyType='external' requires proxyServer to be set; configuration is missing");
    }
    return [{ type: "external", server: options.proxyServer,
              username: options.proxyUsername, password: options.proxyPassword }];
  }
  if (options.proxyCountry) {
    return [{ type: "browserbase", geolocation: { country: options.proxyCountry } }];
  }
  return true;
}
```
-/

/-- Proxy options accepted by `buildProxyConfig` / `getOrCreateSession`. -/
structure BuildProxyOptions where
  proxyEnabled : Option Bool := none
  proxyType : Option ProxyType := none
  proxyCountry : Option Str := none
  proxyServer : Option Str := none
  proxyUsername : Option Str := none
  proxyPassword : Option Str := none

/-- One element of the Browserbase `proxies` array. -/
inductive ProxyEntry
  | browserbase (country : Str)
  | external (server : Str) (username password : Option Str)
deriving DecidableEq

/-- Result shape `Array<...> | true | undefined` of `buildProxyConfig`;
`undefined` is modelled as `none` at the use site. -/
inductive ProxyPayload
  | entries (l : List ProxyEntry)
  | generic
deriving DecidableEq

/-- The `buildProxyConfig`: `Except` models the `throw` on a missing
external server; `Option` models the `undefined` disabled case. -/
def buildProxyConfig (options : BuildProxyOptions) : Except Str (Option ProxyPayload) :=
  if !truthyBool options.proxyEnabled then
    Except.ok none
  else if options.proxyType = some ProxyType.external then
    if !truthyStr options.proxyServer then
      Except.error "proxyType=\x27external\x27 requires proxyServer to be set; configuration is missing".data
    else
      Except.ok (some (ProxyPayload.entries
        [ProxyEntry.external (options.proxyServer.getD [])
          options.proxyUsername options.proxyPassword]))
  else if truthyStr options.proxyCountry then
    Except.ok (some (ProxyPayload.entries
      [ProxyEntry.browserbase (options.proxyCountry.getD [])]))
  else
    Except.ok (some ProxyPayload.generic)

/-! ## Input sanitisation (src/src/browser/grammarlyTask.ts lines 8–39)

```ts
const MAX_USER_TEXT_LENGTH = 8000;
const REMOVED_DIRECTIVE_PLACEHOLDER = "[[REMOVED_PROMPT_DIRECTIVE]]";
const TRUNCATION_PLACEHOLDER = "[[TRUNCATED_DUE_TO_LENGTH]]";

function sanitizeUserText(rawText) {
  const withoutMarkers = rawText
    .replace(/<\s*START_USER_TEXT\s*>/gi, "")
    .replace(/<\s*END_USER_TEXT\s*>/gi, "");
  const directivePattern =
    /^\s*(ignore|do not|don't|follow|stop|start|system|user|assistant)\b.*$/i;
  const stripped = withoutMarkers.split("\n")
    .map((line) => directivePattern.test(line) ? REMOVED_DIRECTIVE_PLACEHOLDER : line)
    .join("\n");
  let truncated = false;
  let safeText = stripped;
  if (safeText.length > MAX_USER_TEXT_LENGTH) {
    truncated = true;
    safeText = `${safeText.slice(0, MAX_USER_TEXT_LENGTH)}\n${TRUNCATION_PLACEHOLDER}`;
  }
  const encoded = Buffer.from(safeText, "utf8").toString("base64");
  return { encoded, truncated };
}
```

The base64 encoding is not modelled: the task prompt instructs the
automation agent to decode and paste the plaintext, so the text that
actually reaches the scoring surface is `safeText` itself.  Case
folding is modelled for ASCII (all characters relevant to the markers
and keywords are ASCII).
-/

/-- Length of the visible user text accepted before truncation. -/
def MAX_USER_TEXT_LENGTH : Nat := 8000

/-- Placeholder substituted for prompt-like directive lines. -/
def REMOVED_DIRECTIVE_PLACEHOLDER : Str := "[[REMOVED_PROMPT_DIRECTIVE]]".data

/-- Placeholder appended after the hard-cap truncation. -/
def TRUNCATION_PLACEHOLDER : Str := "[[TRUNCATED_DUE_TO_LENGTH]]".data

/-- JS regex `\s` character class. -/
def isJsWhitespace (c : Char) : Bool :=
  let n := c.toNat
  n = 0x20 || n = 0x09 || n = 0x0a || n = 0x0b || n = 0x0c || n = 0x0d ||
    n = 0xa0 || n = 0x1680 || (0x2000 ≤ n && n ≤ 0x200a) || n = 0x2028 ||
    n = 0x2029 || n = 0x202f || n = 0x205f || n = 0x3000 || n = 0xfeff

/-- Case-insensitive (ASCII folding, regex `i` flag) literal match of
`pattern` at the start of the input; yields the remaining input. -/
def matchWordCI : Str → Str → Option Str
  | [], s => some s
  | _ :: _, [] => none
  | p :: ps, c :: cs => if p.toLower = c.toLower then matchWordCI ps cs else none

/-- Tail of `/<\s*WORD\s*>/i` after the `<` was consumed: skip
whitespace, match the word, skip whitespace, require `>`.  The greedy
`\s*` needs no backtracking here because neither the word's first
letter nor `>` is whitespace. -/
def matchMarkerTail (word : Str) (rest : Str) : Option Str :=
  (matchWordCI word (rest.dropWhile isJsWhitespace)).bind fun r1 =>
    match r1.dropWhile isJsWhitespace with
    | '>' :: r2 => some r2
    | _ => none

/-- Attempt to match `/<\s*WORD\s*>/i` at the head of the input. -/
def matchMarkerAt (word : Str) : Str → Option Str
  | [] => none
  | c :: rest => if c = '<' then matchMarkerTail word rest else none

theorem dropWhileLen (p : Char → Bool) :
    ∀ l : Str, (l.dropWhile p).length ≤ l.length
  | [] => by simp
  | c :: t => by
    rw [List.dropWhile_cons]
    by_cases h : p c
    · simp only [h, if_true]
      exact Nat.le_succ_of_le (dropWhileLen p t)
    · simp [h]

theorem matchWordCI_length_le :
    ∀ p s r, matchWordCI p s = some r → r.length ≤ s.length := by
  intro p
  induction p with
  | nil =>
    intro s r h
    simp only [matchWordCI, Option.some.injEq] at h
    subst h
    exact le_refl _
  | cons x xs ih =>
    intro s r h
    cases s with
    | nil => simp [matchWordCI] at h
    | cons c cs =>
      by_cases hx : x.toLower = c.toLower
      · simp only [matchWordCI, hx, if_true] at h
        exact Nat.le_succ_of_le (ih cs r h)
      · simp [matchWordCI, hx] at h

theorem matchMarkerTail_length_le {word rest r : Str}
    (h : matchMarkerTail word rest = some r) : r.length ≤ rest.length := by
  unfold matchMarkerTail at h
  cases h1 : matchWordCI word (rest.dropWhile isJsWhitespace) with
  | none => rw [h1] at h; cases h
  | some r1 =>
    rw [h1] at h
    simp only [Option.some_bind] at h
    have hr1 : r1.length ≤ rest.length :=
      le_trans (matchWordCI_length_le _ _ _ h1) (dropWhileLen _ _)
    have hr2 : (r1.dropWhile isJsWhitespace).length ≤ r1.length := dropWhileLen _ _
    split at h
    · rename_i r2 heq
      cases h
      rw [heq] at hr2
      simp only [List.length_cons] at hr2
      omega
    · cases h

/-- One global, left-to-right, non-overlapping regex replacement of
`/<\s*WORD\s*>/gi` by the empty string, as JS `String.replace`. -/
def removeMarker (word : Str) : Str → Str
  | [] => []
  | c :: rest =>
    match h : matchMarkerAt word (c :: rest) with
    | some r => removeMarker word r
    | none => c :: removeMarker word rest
termination_by s => s.length
decreasing_by
  · unfold matchMarkerAt at h
    simp at h
    rcases h with ⟨hc, hm⟩
    have := matchMarkerTail_length_le hm
    simp
    omega
  · simp

/-- JS `String.prototype.split("\n")`. -/
def splitOnNl : Str → List Str
  | [] => [[]]
  | c :: rest =>
    match splitOnNl rest with
    | [] => []
    | l :: ls => if c = '\n' then [] :: l :: ls else (c :: l) :: ls

/-- JS regex `\w` character class. -/
def isJsWordChar (c : Char) : Bool :=
  ('a' ≤ c && c ≤ 'z') || ('A' ≤ c && c ≤ 'Z') || ('0' ≤ c && c ≤ '9') || c = '_'

/-- Keyword alternatives of the directive pattern. -/
def directiveKeywords : List Str :=
  ["ignore".data, "do not".data, "don\x27t".data, "follow".data, "stop".data,
    "start".data, "system".data, "user".data, "assistant".data]

/-- The `directivePattern.test(line)` for
`/^\s*(ignore|do not|don't|follow|stop|start|system|user|assistant)\b.*$/i`:
after leading whitespace one of the keywords must appear, followed by a
word boundary.  Anchoring makes the greedy `\s*` exact (no keyword
starts with whitespace). -/
def directiveTest (line : Str) : Bool :=
  let t := line.dropWhile isJsWhitespace
  directiveKeywords.any fun kw =>
    match matchWordCI kw t with
    | some [] => true
    | some (c :: _) => !isJsWordChar c
    | none => false

/-- Marker removal and directive-line filtering of `sanitizeUserText`
(everything before the truncation check). -/
def stripUserText (rawText : Str) : Str :=
  let withoutMarkers :=
    removeMarker "END_USER_TEXT".data (removeMarker "START_USER_TEXT".data rawText)
  let lines := (splitOnNl withoutMarkers).map fun line =>
    if directiveTest line then REMOVED_DIRECTIVE_PLACEHOLDER else line
  (lines.intersperse ['\n']).flatten

/-- Result of `sanitizeUserText`, at the plaintext level. -/
structure SanitizeResult where
  safeText : Str
  truncated : Bool
deriving DecidableEq

/-- The `sanitizeUserText`: strips markers and directive lines, then
truncates to the hard cap, appending a newline and the truncation
placeholder when truncation occurred. -/
def sanitizeUserText (rawText : Str) : SanitizeResult :=
  let stripped := stripUserText rawText
  if stripped.length > MAX_USER_TEXT_LENGTH then
    { safeText := stripped.take MAX_USER_TEXT_LENGTH ++ '\n' :: TRUNCATION_PLACEHOLDER,
      truncated := true }
  else
    { safeText := stripped, truncated := false }

/-- Modelled from the spec: the Stagehand task's text-input step (the
Stagehand `grammarlyTask` source file is not under src/; only its tests
and its caller are).  Spec §4.3 step 5: "text longer than a hard cap
(8000 characters) is truncated to the cap", and the repository test
asserts the fill primitive receives exactly the first 8000 characters. -/
def stagehandFillText (text : Str) : Str :=
  text.take MAX_USER_TEXT_LENGTH

/-! ### Evaluation lemmas for sanitisation on marker-free input -/

theorem matchWordCI_head_ne {x : Char} (xs : Str) {c : Char} (cs : Str)
    (h : ¬x.toLower = c.toLower) : matchWordCI (x :: xs) (c :: cs) = none := by
  simp [matchWordCI, h]

theorem matchMarkerAt_cons_ne (w : Str) {c : Char} (rest : Str) (h : ¬c = '<') :
    matchMarkerAt w (c :: rest) = none := by
  simp [matchMarkerAt, h]

theorem removeMarker_nil (w : Str) : removeMarker w [] = [] := by
  unfold removeMarker
  rfl

theorem removeMarker_cons_ne (w : Str) {c : Char} (rest : Str) (h : ¬c = '<') :
    removeMarker w (c :: rest) = c :: removeMarker w rest := by
  rw [removeMarker]
  rw [matchMarkerAt_cons_ne w rest h]

theorem removeMarker_replicate (w : Str) (n : Nat) :
    removeMarker w (List.replicate n 'a') = List.replicate n 'a' := by
  induction n with
  | zero => simpa using removeMarker_nil w
  | succ k ih =>
    rw [List.replicate_succ, removeMarker_cons_ne w _ (by decide), ih]

theorem splitOnNl_replicate (n : Nat) :
    splitOnNl (List.replicate n 'a') = [List.replicate n 'a'] := by
  induction n with
  | zero => simp [splitOnNl]
  | succ k ih =>
    rw [List.replicate_succ]
    simp [splitOnNl, ih]

theorem directiveKeywords_chars :
    directiveKeywords =
      [['i', 'g', 'n', 'o', 'r', 'e'], ['d', 'o', ' ', 'n', 'o', 't'],
        ['d', 'o', 'n', '\x27', 't'], ['f', 'o', 'l', 'l', 'o', 'w'],
        ['s', 't', 'o', 'p'], ['s', 't', 'a', 'r', 't'],
        ['s', 'y', 's', 't', 'e', 'm'], ['u', 's', 'e', 'r'],
        ['a', 's', 's', 'i', 's', 't', 'a', 'n', 't']] := rfl

theorem matchWordCI_head_eq {x : Char} (xs : Str) {c : Char} (cs : Str)
    (h : x.toLower = c.toLower) : matchWordCI (x :: xs) (c :: cs) = matchWordCI xs cs := by
  simp [matchWordCI, h]

theorem directiveTest_aa (rest : Str) :
    directiveTest ('a' :: 'a' :: rest) = false := by
  have hws : isJsWhitespace 'a' = false := by decide
  simp only [directiveTest, List.dropWhile_cons, hws, Bool.false_eq_true, if_false,
    directiveKeywords_chars, List.any_cons, List.any_nil]
  rw [matchWordCI_head_ne _ _ (by decide), matchWordCI_head_ne _ _ (by decide),
    matchWordCI_head_ne _ _ (by decide), matchWordCI_head_ne _ _ (by decide),
    matchWordCI_head_ne _ _ (by decide), matchWordCI_head_ne _ _ (by decide),
    matchWordCI_head_ne _ _ (by decide), matchWordCI_head_ne _ _ (by decide)]
  have hassist :
      matchWordCI ['a', 's', 's', 'i', 's', 't', 'a', 'n', 't'] ('a' :: 'a' :: rest) =
        none := by
    rw [matchWordCI_head_eq _ _ (by decide)]
    exact matchWordCI_head_ne _ _ (by decide)
  rw [hassist]
  simp

theorem stripUserText_replicate (n : Nat) (hn : 2 ≤ n) :
    stripUserText (List.replicate n 'a') = List.replicate n 'a' := by
  obtain ⟨k, rfl⟩ : ∃ k, n = k + 2 := ⟨n - 2, by omega⟩
  simp only [stripUserText]
  rw [removeMarker_replicate, removeMarker_replicate, splitOnNl_replicate]
  have hd : directiveTest (List.replicate (k + 2) 'a') = false := by
    have : List.replicate (k + 2) 'a' = 'a' :: 'a' :: List.replicate k 'a' := by
      simp [List.replicate_succ]
    rw [this]
    exact directiveTest_aa _
  simp [hd, List.intersperse]

/-- C3 counterexample: the claim says every input longer than 8000
characters is truncated to exactly 8000 characters before use; for the
8001-character marker-free input `'a' * 8001`, `sanitizeUserText`
produces a safe text of 8028 characters (the 8000-character cap plus a
newline and the 27-character truncation placeholder), not 8000. -/
theorem sanitizeUserText_counterexample :
    (List.replicate 8001 'a').length = 8001 ∧
    (sanitizeUserText (List.replicate 8001 'a')).safeText.length = 8028 ∧
    ¬(sanitizeUserText (List.replicate 8001 'a')).safeText.length = 8000 := by
  have hs : stripUserText (List.replicate 8001 'a') = List.replicate 8001 'a' :=
    stripUserText_replicate 8001 (by omega)
  have hTP : TRUNCATION_PLACEHOLDER.length = 27 := rfl
  have hgt : (List.replicate 8001 'a' : Str).length > MAX_USER_TEXT_LENGTH := by
    simp only [List.length_replicate, MAX_USER_TEXT_LENGTH]
    omega
  have hlen : (sanitizeUserText (List.replicate 8001 'a')).safeText.length = 8028 := by
    simp only [sanitizeUserText, hs]
    rw [if_pos hgt]
    simp only [List.length_append, List.length_cons, List.length_take,
      List.length_replicate, hTP, MAX_USER_TEXT_LENGTH]
    omega
  exact ⟨by simp only [List.length_replicate], hlen, by omega⟩

/-- C3 amended: when the marker-stripped, directive-filtered text
exceeds the 8000-character cap, the sanitize step of the Browser Use
path keeps exactly the first 8000 characters of it and appends a
newline plus the truncation placeholder, making the submitted text 8028
characters long with its 8000-character prefix equal to the capped
content; the Stagehand direct-fill path (modelled from the spec)
truncates to exactly 8000 characters. -/
theorem sanitizeUserText_truncation (raw : Str)
    (h : MAX_USER_TEXT_LENGTH < (stripUserText raw).length) :
    (sanitizeUserText raw).safeText =
      (stripUserText raw).take MAX_USER_TEXT_LENGTH ++ '\n' :: TRUNCATION_PLACEHOLDER ∧
    (sanitizeUserText raw).safeText.length = 8028 ∧
    (sanitizeUserText raw).safeText.take MAX_USER_TEXT_LENGTH =
      (stripUserText raw).take MAX_USER_TEXT_LENGTH ∧
    (sanitizeUserText raw).truncated = true ∧
    (∀ t : Str, MAX_USER_TEXT_LENGTH < t.length →
      (stagehandFillText t).length = MAX_USER_TEXT_LENGTH ∧
      stagehandFillText t = t.take MAX_USER_TEXT_LENGTH) := by
  have hcond : (stripUserText raw).length > MAX_USER_TEXT_LENGTH := h
  have heq : (sanitizeUserText raw).safeText =
      (stripUserText raw).take MAX_USER_TEXT_LENGTH ++ '\n' :: TRUNCATION_PLACEHOLDER := by
    simp only [sanitizeUserText]
    rw [if_pos hcond]
  have htakelen : ((stripUserText raw).take MAX_USER_TEXT_LENGTH).length =
      MAX_USER_TEXT_LENGTH := by
    simp only [List.length_take]
    omega
  refine ⟨heq, ?_, ?_, ?_, ?_⟩
  · rw [heq]
    have hTP : TRUNCATION_PLACEHOLDER.length = 27 := rfl
    have htakelen' := htakelen
    simp only [MAX_USER_TEXT_LENGTH] at htakelen'
    simp only [List.length_append, List.length_cons, hTP, MAX_USER_TEXT_LENGTH, htakelen']
  · rw [heq]
    exact @List.take_left' Char _ ('\n' :: TRUNCATION_PLACEHOLDER) _ htakelen
  · simp only [sanitizeUserText]
    rw [if_pos hcond]
  · intro t ht
    constructor
    · simp only [stagehandFillText, List.length_take]
      omega
    · rfl

/-- Witness for `sanitizeUserText_truncation` on the 8001-character
input `'a' * 8001`. -/
theorem sanitizeUserText_truncation_witness :
    MAX_USER_TEXT_LENGTH < (stripUserText (List.replicate 8001 'a')).length ∧
    (sanitizeUserText (List.replicate 8001 'a')).truncated = true := by
  have hs : stripUserText (List.replicate 8001 'a') = List.replicate 8001 'a' :=
    stripUserText_replicate 8001 (by omega)
  have hlen : MAX_USER_TEXT_LENGTH < (stripUserText (List.replicate 8001 'a')).length := by
    rw [hs]
    simp only [List.length_replicate, MAX_USER_TEXT_LENGTH]
    omega
  exact ⟨hlen, (sanitizeUserText_truncation (List.replicate 8001 'a') hlen).2.2.2.1⟩

/-! ## Browserbase session manager (`BrowserbaseSessionManager`,
src/CHANGELOG.md lines 82–355)

The manager's mutable per-instance cache (`cachedSessionId`,
`cachedContextId`) is threaded explicitly as `ManagerState`; the
Browserbase SDK is an oracle (`BrowserbaseBackend`) supplying each
call's outcome; `Except` models promise rejection. -/

/-- The per-instance cache of `BrowserbaseSessionManager`. -/
structure ManagerState where
  cachedSessionId : Option Str
  cachedContextId : Option Str
deriving DecidableEq

/-- Oracle for the Browserbase SDK calls used by the manager. -/
structure BrowserbaseBackend where
  /-- The `bb.sessions.retrieve(id)`: its `status` field (`string | undefined`),
  or a rejection. -/
  retrieveStatus : Str → Except Str (Option Str)
  /-- The `bb.sessions.update(id, {status: "REQUEST_RELEASE", ...})`. -/
  updateRelease : Str → Except Str Unit
  /-- The `bb.sessions.create(params)`: id, contextId and status of the new
  session, or a rejection. -/
  create : Except Str (Str × Option Str × Option Str)
  /-- The `bb.contexts.create({projectId})`: the new context id, or a
  rejection. -/
  contextCreate : Except Str Str
  /-- The `bb.sessions.debug(id)`: `debuggerFullscreenUrl` and `debuggerUrl`
  fields, or a rejection. -/
  debug : Str → Except Str (Option Str × Option Str)

/-- The `isSessionActive(id)`: `true` iff retrieval succeeds and the status
is `"RUNNING"`; any retrieval error means not active. -/
def isSessionActive (b : BrowserbaseBackend) (sessionId : Str) : Bool :=
  match b.retrieveStatus sessionId with
  | Except.ok (some s) => s = "RUNNING".data
  | Except.ok none => false
  | Except.error _ => false

/-- The `getDebugUrl(id)`: `debuggerFullscreenUrl ?? debuggerUrl ?? null`,
`null` on any failure. -/
def getDebugUrl (b : BrowserbaseBackend) (sessionId : Str) : Option Str :=
  match b.debug sessionId with
  | Except.ok (full, plain) => full.orElse fun _ => plain
  | Except.error _ => none

/-- The `closeSession(sessionId)`: request release; on success clear the
cache when the id matches; errors from the release call are caught and
logged, never rethrown (the function is total and returns the new
cache state). -/
def closeSession (b : BrowserbaseBackend) (st : ManagerState) (sessionId : Str) :
    ManagerState :=
  match b.updateRelease sessionId with
  | Except.ok _ =>
    if st.cachedSessionId = some sessionId then
      { st with cachedSessionId := none }
    else
      st
  | Except.error _ => st

/-- The `SessionInfo` returned by `getOrCreateSession`. -/
structure SessionInfo where
  sessionId : Str
  contextId : Option Str := none
  liveUrl : Option Str := none
  status : Option Str := none
  needsLogin : Option Bool := none
  debugUrl : Option Str := none
deriving DecidableEq

/-- Options of `getOrCreateSession` (stealth fields omitted: they only
shape the opaque `browserSettings` passed to the create call). -/
structure SessionOptions where
  contextId : Option Str := none
  forceNew : Option Bool := none
  proxyEnabled : Option Bool := none
  proxyType : Option ProxyType := none
  proxyCountry : Option Str := none
  proxyServer : Option Str := none
  proxyUsername : Option Str := none
  proxyPassword : Option Str := none

/-- The proxy subset of the options, as consumed by `buildProxyConfig`. -/
def SessionOptions.proxyOptions (o : SessionOptions) : BuildProxyOptions :=
  { proxyEnabled := o.proxyEnabled, proxyType := o.proxyType,
    proxyCountry := o.proxyCountry, proxyServer := o.proxyServer,
    proxyUsername := o.proxyUsername, proxyPassword := o.proxyPassword }

/-- Outcome of `getOrCreateSession`: the returned/raised value, the new
cache state, and whether a `sessions.create` call was issued. -/
structure GetOrCreateOutcome where
  result : Except Str SessionInfo
  state : ManagerState
  createCalled : Bool

/-- Create-session path of `getOrCreateSession` (everything after the
reuse check failed or was skipped): resolve a context (explicit option,
then cache, then auto-create with `needsLogin = true`), build the proxy
payload, create the session, cache the new ids, best-effort fetch the
debug URL. -/
def createSessionPath (b : BrowserbaseBackend) (st : ManagerState)
    (options : SessionOptions) : GetOrCreateOutcome :=
  let contextId0 := options.contextId.orElse fun _ => st.cachedContextId
  createSessionAfterContext b st options contextId0
where
  /-- Context resolution and the remainder of the create path. -/
  createSessionAfterContext (b : BrowserbaseBackend) (st : ManagerState)
      (options : SessionOptions) (contextId0 : Option Str) : GetOrCreateOutcome :=
    if truthyStr contextId0 = false then
      match b.contextCreate with
      | Except.error e => { result := Except.error e, state := st, createCalled := false }
      | Except.ok newCtx =>
        createSessionCore b { st with cachedContextId := some newCtx } options
          (some newCtx) true
    else
      createSessionCore b st options contextId0 false
  /-- Proxy build, session create, cache update, debug URL. -/
  createSessionCore (b : BrowserbaseBackend) (st : ManagerState)
      (options : SessionOptions) (contextId : Option Str) (needsLogin : Bool) :
      GetOrCreateOutcome :=
    match buildProxyConfig options.proxyOptions with
    | Except.error e => { result := Except.error e, state := st, createCalled := false }
    | Except.ok _proxies =>
      match b.create with
      | Except.error e => { result := Except.error e, state := st, createCalled := true }
      | Except.ok (newId, sessionCtx, sessionStatus) =>
        let st1 := { st with cachedSessionId := some newId }
        let newContextId := sessionCtx.orElse fun _ => contextId
        let st2 := if truthyStr newContextId then
            { st1 with cachedContextId := newContextId }
          else st1
        { result := Except.ok
            { sessionId := newId, contextId := newContextId,
              status := sessionStatus, needsLogin := some needsLogin,
              debugUrl := getDebugUrl b newId },
          state := st2, createCalled := true }

/-- The `getOrCreateSession(options)`: reuse the cached session when
`forceNew` is falsy, a session id is cached, and the liveness probe
reports it running; otherwise fall through to the create path. -/
def getOrCreateSession (b : BrowserbaseBackend) (st : ManagerState)
    (options : SessionOptions) : GetOrCreateOutcome :=
  if truthyBool options.forceNew = false ∧ truthyStr st.cachedSessionId = true then
    let sid := st.cachedSessionId.getD []
    if isSessionActive b sid then
      { result := Except.ok { sessionId := sid, contextId := st.cachedContextId },
        state := st, createCalled := false }
    else
      createSessionPath b st options
  else
    createSessionPath b st options

/-! ## Optimization orchestration (`runGrammarlyOptimization`,
src/src/grammarlyOptimizer.ts lines 152–381)

The Browser Use and Claude calls are modelled as oracles supplying each
call's outcome; the scoring and rewrite oracles additionally receive
the iteration index, abstracting over everything else in the request
(tone, hints, and custom instructions only shape the prompt text).
Progress notifications and logging have no effect on results and are
not modelled. -/

/-- Tool mode. -/
inductive OptimizeMode
  | score_only
  | optimize
  | analyze
deriving DecidableEq

/-- Result of `rewriteTextWithClaude`. -/
structure RewriteResult where
  rewrittenText : Str
  reasoning : Str
deriving DecidableEq

/-- One history record of the optimization run. -/
structure HistoryEntry where
  iteration : Nat
  ai_detection_percent : Option ℚ
  plagiarism_percent : Option ℚ
  note : Str
deriving DecidableEq

/-- Result surface of the tool. -/
structure GrammarlyOptimizeResult where
  final_text : Str
  ai_detection_percent : Option ℚ
  plagiarism_percent : Option ℚ
  iterations_used : Nat
  thresholds_met : Bool
  history : List HistoryEntry
  notes : Str
deriving DecidableEq

/-- Tool input (tone / domain hint / custom instructions omitted: they
only shape prompt text consumed by the oracles). -/
structure OptimizeInput where
  text : Str
  mode : OptimizeMode
  max_ai_percent : ℚ
  max_plagiarism_percent : ℚ
  max_iterations : Nat

/-- Oracle for the external calls of `runGrammarlyOptimization`. -/
structure OptimizerBackend where
  /-- The `createGrammarlySession`: session id or rejection. -/
  createSession : Except Str Str
  /-- The `runGrammarlyScoreTask` at a given iteration on a given text. -/
  score : Nat → Str → Except Str GrammarlyScores
  /-- The `rewriteTextWithClaude` at a given iteration on a given text. -/
  rewrite : Nat → Str → Except Str RewriteResult
  /-- The `analyzeTextWithClaude`. -/
  analyze : Except Str Str
  /-- The `summarizeOptimizationWithClaude`. -/
  summarize : Except Str Str
  /-- The `sessions.deleteSession` in the `finally` block. -/
  deleteSession : Str → Except Str Unit

/-- The baseline history entry pushed before the mode dispatch. -/
def baselineEntry (s0 : GrammarlyScores) : HistoryEntry :=
  { iteration := 0, ai_detection_percent := s0.aiDetectionPercent,
    plagiarism_percent := s0.plagiarismPercent,
    note := "Baseline Grammarly scores on original text (iteration 0).".data }

/-- Mutable locals of the optimize loop. -/
structure LoopState where
  currentText : Str
  lastScores : GrammarlyScores
  iterationsUsed : Nat
  reachedThresholds : Bool
  history : List HistoryEntry

/-- The `for (iteration = 1; iteration <= max_iterations; ...)` loop of
optimize mode: rewrite, re-score, evaluate thresholds, push a history
entry, break early when thresholds are met. -/
def optimizeLoop (rewriteFn : Nat → Str → Except Str RewriteResult)
    (scoreFn : Nat → Str → Except Str GrammarlyScores)
    (maxAi maxPlag : ℚ) (maxIterations : Nat) :
    Nat → LoopState → Except Str LoopState
  | iteration, st =>
    if h : iteration > maxIterations then
      Except.ok st
    else
      match rewriteFn iteration st.currentText with
      | Except.error e => Except.error e
      | Except.ok rw =>
        match scoreFn iteration rw.rewrittenText with
        | Except.error e => Except.error e
        | Except.ok s =>
          let reached := thresholdsMet s maxAi maxPlag
          let st1 : LoopState :=
            { currentText := rw.rewrittenText, lastScores := s,
              iterationsUsed := iteration, reachedThresholds := reached,
              history := st.history ++
                [{ iteration := iteration,
                   ai_detection_percent := s.aiDetectionPercent,
                   plagiarism_percent := s.plagiarismPercent,
                   note := rw.reasoning }] }
          if reached then Except.ok st1
          else optimizeLoop rewriteFn scoreFn maxAi maxPlag maxIterations (iteration + 1) st1
termination_by iteration _ => maxIterations + 1 - iteration
decreasing_by
  omega

/-- Body of `runGrammarlyOptimization` inside the `try`: baseline
scoring, then the mode dispatch. -/
def runOptimizationBody (b : OptimizerBackend) (input : OptimizeInput) :
    Except Str GrammarlyOptimizeResult :=
  match b.score 0 input.text with
  | Except.error e => Except.error e
  | Except.ok s0 =>
    match input.mode with
    | OptimizeMode.score_only =>
      let reached := thresholdsMet s0 input.max_ai_percent input.max_plagiarism_percent
      let notes : Str := if reached then
          "Score-only run: original text already meets configured AI and plagiarism thresholds.".data
        else
          "Score-only run: thresholds not met or scores unavailable; no rewriting performed.".data
      Except.ok
        { final_text := input.text,
          ai_detection_percent := s0.aiDetectionPercent,
          plagiarism_percent := s0.plagiarismPercent,
          iterations_used := 0,
          thresholds_met := reached,
          history := [baselineEntry s0],
          notes := notes }
    | OptimizeMode.analyze =>
      match b.analyze with
      | Except.error e => Except.error e
      | Except.ok analysis =>
        let reached := thresholdsMet s0 input.max_ai_percent input.max_plagiarism_percent
        Except.ok
          { final_text := input.text,
            ai_detection_percent := s0.aiDetectionPercent,
            plagiarism_percent := s0.plagiarismPercent,
            iterations_used := 0,
            thresholds_met := reached,
            history := [baselineEntry s0],
            notes := analysis }
    | OptimizeMode.optimize =>
      match optimizeLoop b.rewrite b.score input.max_ai_percent
          input.max_plagiarism_percent input.max_iterations 1
          { currentText := input.text, lastScores := s0, iterationsUsed := 0,
            reachedThresholds := false, history := [baselineEntry s0] } with
      | Except.error e => Except.error e
      | Except.ok fin =>
        match b.summarize with
        | Except.error e => Except.error e
        | Except.ok notes =>
          Except.ok
            { final_text := fin.currentText,
              ai_detection_percent := fin.lastScores.aiDetectionPercent,
              plagiarism_percent := fin.lastScores.plagiarismPercent,
              iterations_used := fin.iterationsUsed,
              thresholds_met := fin.reachedThresholds,
              history := fin.history,
              notes := notes }

/-- Outcome of a full run: the returned/raised value and whether the
`finally` block attempted to close the created session. -/
structure RunOutcome where
  result : Except Str GrammarlyOptimizeResult
  closeAttempted : Bool

/-- The `runGrammarlyOptimization`: acquire the session, run the body, and
in the `finally` block attempt `deleteSession` whenever a session id
was obtained, discarding (logging only) its outcome.  When session
creation itself rejects, `sessionId` is still `null` in the `finally`
block and no close is attempted. -/
def runGrammarlyOptimization (b : OptimizerBackend) (input : OptimizeInput) :
    RunOutcome :=
  match b.createSession with
  | Except.error e => { result := Except.error e, closeAttempted := false }
  | Except.ok sessionId =>
    let body := runOptimizationBody b input
    let _ := b.deleteSession sessionId
    { result := body, closeAttempted := true }

/-! ## Theorems: threshold policy, password builder, proxy configuration -/

/-- C1: for every scores record and configured maxima, `thresholdsMet`
reports thresholds met iff each score is either unavailable (`none`) or
numerically ≤ its configured maximum, except that when both scores are
unavailable simultaneously the check reports NOT met; in particular
`{ai: null, plagiarism: null}` is not met for any maxima, and
`{ai: 5, plagiarism: null}` with `maxAi = 10` is met. -/
theorem thresholdsMet_policy (s : GrammarlyScores) (maxAi maxPlag : ℚ) :
    (thresholdsMet s maxAi maxPlag = true ↔
      (¬(s.aiDetectionPercent = none ∧ s.plagiarismPercent = none) ∧
        (∀ a, s.aiDetectionPercent = some a → a ≤ maxAi) ∧
        (∀ p, s.plagiarismPercent = some p → p ≤ maxPlag))) ∧
    (∀ n, thresholdsMet ⟨none, none, n⟩ maxAi maxPlag = false) ∧
    (∀ mp n, thresholdsMet ⟨some 5, none, n⟩ 10 mp = true) := by
  refine ⟨?_, ?_, ?_⟩
  · rcases s with ⟨ai, plag, n⟩
    cases ai <;> cases plag <;> simp [thresholdsMet]
  · intro n
    simp [thresholdsMet]
  · intro mp n
    norm_num [thresholdsMet]

/-- Witness for `thresholdsMet_policy` at concrete scores. -/
theorem thresholdsMet_policy_witness :
    thresholdsMet ⟨some 5, none, []⟩ 10 5 = true := by
  have h := (thresholdsMet_policy ⟨some 5, none, []⟩ 10 5).2.2 5 []
  exact h

/-- C5: `buildIproyalPassword` joins base password and options in the
fixed order country, session, lifetime with underscore delimiters and a
lowercased country: the two spec examples, plus the general fixed-order
shape for three truthy options. -/
theorem buildIproyalPassword_format :
    buildIproyalPassword "p".data { country := some "US".data } = "p_country-us".data ∧
    buildIproyalPassword "p".data
        { country := some "GB".data, sessionId := some "xyz98765".data,
          sessionLifetime := some "1h".data } =
      "p_country-gb_session-xyz98765_lifetime-1h".data ∧
    (∀ base c sid lt, c ≠ [] → sid ≠ [] → lt ≠ [] →
      buildIproyalPassword base
          { country := some c, sessionId := some sid, sessionLifetime := some lt } =
        base ++ "_country-".data ++ jsToLowerCase c ++ "_session-".data ++ sid
          ++ "_lifetime-".data ++ lt) := by
  refine ⟨by decide, by decide, ?_⟩
  intro base c sid lt hc hsid hlt
  simp [buildIproyalPassword, truthyStr, hc, hsid, hlt, List.intersperse,
    jsToLowerCase, String.data]

/-- Witness for `buildIproyalPassword_format` at concrete inputs. -/
theorem buildIproyalPassword_format_witness :
    buildIproyalPassword "p".data
        { country := some "GB".data, sessionId := some "xyz98765".data,
          sessionLifetime := some "1h".data } =
      "p".data ++ "_country-".data ++ jsToLowerCase "GB".data ++ "_session-".data
        ++ "xyz98765".data ++ "_lifetime-".data ++ "1h".data :=
  (buildIproyalPassword_format).2.2 "p".data "GB".data "xyz98765".data "1h".data
    (by decide) (by decide) (by decide)

/-- C4: for every proxy password that already contains `_country-`,
`_session-` or `_lifetime-`, the password-building step of
`getSessionOptions` returns the input password unchanged, so applying
the build step twice yields the same value as applying it once. -/
theorem sessionProxyPassword_passthrough (cfg : ProxyCfg) (pw : Str)
    (hpw : cfg.password = some pw)
    (hparams : hasIproyalParams pw = true) :
    sessionProxyPassword cfg = some pw ∧
    sessionProxyPassword { cfg with password := sessionProxyPassword cfg } =
      sessionProxyPassword cfg := by
  have hne : pw.isEmpty = false := by
    cases pw with
    | nil => simp [hasIproyalParams, containsSubstr] at hparams
    | cons c t => simp [List.isEmpty]
  have h1 : sessionProxyPassword cfg = some pw := by
    simp [sessionProxyPassword, hpw, truthyStr, hne, hparams]
  refine ⟨h1, ?_⟩
  rw [h1]
  simp [sessionProxyPassword, truthyStr, hne, hparams, h1]

/-- Witness for `sessionProxyPassword_passthrough` on a password that
already carries an IPRoyal country parameter. -/
theorem sessionProxyPassword_passthrough_witness :
    hasIproyalParams "mypass_country-us".data = true ∧
    sessionProxyPassword { password := some "mypass_country-us".data } =
      some "mypass_country-us".data :=
  ⟨by decide,
    (sessionProxyPassword_passthrough { password := some "mypass_country-us".data }
      "mypass_country-us".data rfl (by decide)).1⟩

/-- C6 counterexample: the claim says an external proxy configuration
supplying a server but neither username nor password is accepted as
valid; the `ProxyConfigSchema` refinement rejects exactly such a
configuration (its message is "External proxy requires server,
username, and password"). -/
theorem proxyConfigRefine_rejects_server_only_external :
    proxyConfigRefine
      { type := ProxyType.external,
        server := some "http://open-proxy.example.com:8080".data } = false := by
  decide

/-- C6 amended: at the session-manager layer (`buildProxyConfig`) only
the server is required for an external proxy — username/password pass
through possibly absent, and construction fails exactly when the server
is missing; the environment-level `ProxyConfigSchema` refinement,
however, additionally demands username and password for external
configurations. -/
theorem externalProxy_validation_vs_construction
    (o : BuildProxyOptions) (c : ProxyCfg)
    (henabled : truthyBool o.proxyEnabled = true)
    (htype : o.proxyType = some ProxyType.external)
    (hext : c.type = ProxyType.external) :
    (truthyStr o.proxyServer = true →
      buildProxyConfig o = Except.ok (some (ProxyPayload.entries
        [ProxyEntry.external (o.proxyServer.getD [])
          o.proxyUsername o.proxyPassword]))) ∧
    (truthyStr o.proxyServer = false → ∃ msg, buildProxyConfig o = Except.error msg) ∧
    (proxyConfigRefine c = true ↔
      truthyStr c.server = true ∧ truthyStr c.username = true ∧
        truthyStr c.password = true) := by
  refine ⟨?_, ?_, ?_⟩
  · intro hserver
    simp [buildProxyConfig, henabled, htype, hserver]
  · intro hserver
    exact ⟨"proxyType=\x27external\x27 requires proxyServer to be set; configuration is missing".data,
      by simp [buildProxyConfig, henabled, htype, hserver]⟩
  · simp [proxyConfigRefine, hext, and_assoc]

/-- Witness for `externalProxy_validation_vs_construction`: a concrete
unauthenticated external proxy accepted by `buildProxyConfig`. -/
theorem externalProxy_validation_vs_construction_witness :
    buildProxyConfig
      { proxyEnabled := some true, proxyType := some ProxyType.external,
        proxyServer := some "http://open-proxy.example.com:8080".data } =
      Except.ok (some (ProxyPayload.entries
        [ProxyEntry.external "http://open-proxy.example.com:8080".data none none])) :=
  (externalProxy_validation_vs_construction
      { proxyEnabled := some true, proxyType := some ProxyType.external,
        proxyServer := some "http://open-proxy.example.com:8080".data }
      { type := ProxyType.external } rfl rfl rfl).1 (by decide)

/-- C7: `buildProxyConfig` is a pure function of its options with the
specified case analysis — `undefined` when disabled; external
single-element payload when type is external and a server is present;
a specific configuration-missing error when type is external and the
server is absent; browserbase geolocation payload when a country is set
and the type is not external; the literal generic marker when enabled
with no type and no country. -/
theorem buildProxyConfig_case_analysis (o : BuildProxyOptions) :
    (truthyBool o.proxyEnabled = false → buildProxyConfig o = Except.ok none) ∧
    (truthyBool o.proxyEnabled = true → o.proxyType = some ProxyType.external →
      truthyStr o.proxyServer = true →
      buildProxyConfig o = Except.ok (some (ProxyPayload.entries
        [ProxyEntry.external (o.proxyServer.getD [])
          o.proxyUsername o.proxyPassword]))) ∧
    (truthyBool o.proxyEnabled = true → o.proxyType = some ProxyType.external →
      truthyStr o.proxyServer = false →
      buildProxyConfig o = Except.error
        "proxyType=\x27external\x27 requires proxyServer to be set; configuration is missing".data) ∧
    (truthyBool o.proxyEnabled = true → o.proxyType ≠ some ProxyType.external →
      truthyStr o.proxyCountry = true →
      buildProxyConfig o = Except.ok (some (ProxyPayload.entries
        [ProxyEntry.browserbase (o.proxyCountry.getD [])]))) ∧
    (truthyBool o.proxyEnabled = true → o.proxyType = none →
      truthyStr o.proxyCountry = false →
      buildProxyConfig o = Except.ok (some ProxyPayload.generic)) := by
  refine ⟨?_, ?_, ?_, ?_, ?_⟩ <;> intros <;>
    simp [buildProxyConfig, *]

/-- Witness for `buildProxyConfig_case_analysis`: the generic-proxy
marker is returned when the proxy is enabled with no type and country. -/
theorem buildProxyConfig_case_analysis_witness :
    buildProxyConfig { proxyEnabled := some true } =
      Except.ok (some ProxyPayload.generic) :=
  (buildProxyConfig_case_analysis { proxyEnabled := some true }).2.2.2.2
    rfl rfl (by decide)

/-! ## Theorems: session manager -/

theorem truthyStr_some_of_ne {s : Str} (h : s ≠ []) : truthyStr (some s) = true := by
  cases s with
  | nil => exact absurd rfl h
  | cons c t => rfl

/-- A Browserbase backend whose every call rejects. -/
def rejectingBackend : BrowserbaseBackend where
  retrieveStatus _ := Except.error "boom".data
  updateRelease _ := Except.error "Session update failed".data
  create := Except.error "boom".data
  contextCreate := Except.error "boom".data
  debug _ := Except.error "boom".data

/-- A Browserbase backend whose every call succeeds; the cached session
probes as RUNNING. -/
def healthyBackend : BrowserbaseBackend where
  retrieveStatus _ := Except.ok (some "RUNNING".data)
  updateRelease _ := Except.ok ()
  create := Except.ok ("new-session".data, some "new-ctx".data, some "RUNNING".data)
  contextCreate := Except.ok "auto-context".data
  debug _ := Except.ok (some "https://debug.full.url".data, none)

/-- C2 counterexample: the claim says closing the cached id clears the
cached id even if the backend release call fails; in the code the cache
is cleared inside the `try`, after the awaited release call, so on a
rejected release the cached id is preserved (which the repository's own
test "preserves cached session ID when close fails" asserts). -/
theorem closeSession_failedRelease_counterexample :
    (closeSession rejectingBackend
        { cachedSessionId := some "session-to-close".data, cachedContextId := none }
        "session-to-close".data).cachedSessionId = some "session-to-close".data ∧
    ¬(closeSession rejectingBackend
        { cachedSessionId := some "session-to-close".data, cachedContextId := none }
        "session-to-close".data).cachedSessionId = none := by
  constructor
  · rfl
  · intro hnone
    simp [closeSession, rejectingBackend] at hnone

/-- C2 amended: `closeSession` never propagates a backend error (it is
total in the release outcome); an id that does not match the cached
session id leaves the cache unchanged; the cached id is cleared when
the release call succeeds and the id matches; when the release call
fails the cache is left entirely unchanged. -/
theorem closeSession_behavior (b : BrowserbaseBackend) (st : ManagerState) (sid : Str) :
    (st.cachedSessionId ≠ some sid → closeSession b st sid = st) ∧
    (b.updateRelease sid = Except.ok () → st.cachedSessionId = some sid →
      closeSession b st sid = { st with cachedSessionId := none }) ∧
    (∀ e, b.updateRelease sid = Except.error e → closeSession b st sid = st) := by
  refine ⟨?_, ?_, ?_⟩
  · intro hne
    unfold closeSession
    cases b.updateRelease sid with
    | ok u => simp [hne]
    | error e => rfl
  · intro hok hmatch
    unfold closeSession
    rw [hok]
    simp [hmatch]
  · intro e herr
    unfold closeSession
    rw [herr]

/-- Witness for `closeSession_behavior`: successful release of the
cached id clears the cache. -/
theorem closeSession_behavior_witness :
    closeSession healthyBackend
        { cachedSessionId := some "s1".data, cachedContextId := none } "s1".data =
      { cachedSessionId := none, cachedContextId := none } :=
  (closeSession_behavior healthyBackend
      { cachedSessionId := some "s1".data, cachedContextId := none } "s1".data).2.1
    rfl rfl

/-- C9: with a cached session id, falsy `forceNew`, and a liveness probe
reporting the session RUNNING, `getOrCreateSession` returns the cached
`{sessionId, contextId}` pair, leaves the cache untouched, and issues
no session-create call. -/
theorem getOrCreateSession_reuse (b : BrowserbaseBackend) (st : ManagerState)
    (options : SessionOptions) (sid : Str)
    (hcache : st.cachedSessionId = some sid) (hne : sid ≠ [])
    (hforce : truthyBool options.forceNew = false)
    (hstatus : b.retrieveStatus sid = Except.ok (some "RUNNING".data)) :
    getOrCreateSession b st options =
      { result := Except.ok { sessionId := sid, contextId := st.cachedContextId },
        state := st, createCalled := false } := by
  have hactive : isSessionActive b sid = true := by
    simp [isSessionActive, hstatus]
  unfold getOrCreateSession
  rw [if_pos ⟨hforce, by rw [hcache]; exact truthyStr_some_of_ne hne⟩]
  simp only [hcache, Option.getD_some]
  rw [if_pos hactive]

/-- Witness for `getOrCreateSession_reuse` on a healthy backend with a
cached session. -/
theorem getOrCreateSession_reuse_witness :
    getOrCreateSession healthyBackend
        { cachedSessionId := some "cached-session".data,
          cachedContextId := some "ctx".data } {} =
      { result := Except.ok
          { sessionId := "cached-session".data, contextId := some "ctx".data },
        state :=
          { cachedSessionId := some "cached-session".data,
            cachedContextId := some "ctx".data },
        createCalled := false } :=
  getOrCreateSession_reuse healthyBackend
    { cachedSessionId := some "cached-session".data, cachedContextId := some "ctx".data }
    {} "cached-session".data rfl (by decide) rfl rfl

/-! ## Theorems: optimization loop -/

theorem head?_append_singleton {α : Type} {l : List α} (e : α) (h : l ≠ []) :
    (l ++ [e]).head? = l.head? := by
  cases l with
  | nil => exact absurd rfl h
  | cons a t => rfl

/-- Loop invariant: starting from a state whose history length is one
more than its iteration counter (the baseline entry plus one entry per
completed iteration), a successful loop preserves that relation and the
head of the history. -/
theorem optimizeLoop_history_invariant
    (rewriteFn : Nat → Str → Except Str RewriteResult)
    (scoreFn : Nat → Str → Except Str GrammarlyScores)
    (maxAi maxPlag : ℚ) (maxIterations : Nat) :
    ∀ k iteration st fin,
      maxIterations + 1 - iteration = k →
      optimizeLoop rewriteFn scoreFn maxAi maxPlag maxIterations iteration st =
        Except.ok fin →
      st.history.length = st.iterationsUsed + 1 →
      iteration = st.iterationsUsed + 1 →
      fin.history.length = fin.iterationsUsed + 1 ∧
        fin.history.head? = st.history.head? := by
  intro k
  induction k with
  | zero =>
    intro iteration st fin hk hloop hlen hit
    have hgt : iteration > maxIterations := by omega
    unfold optimizeLoop at hloop
    rw [dif_pos hgt] at hloop
    cases hloop
    exact ⟨hlen, rfl⟩
  | succ k ih =>
    intro iteration st fin hk hloop hlen hit
    have hle : ¬iteration > maxIterations := by omega
    unfold optimizeLoop at hloop
    rw [dif_neg hle] at hloop
    cases hrw : rewriteFn iteration st.currentText with
    | error e => rw [hrw] at hloop; cases hloop
    | ok rw1 =>
      rw [hrw] at hloop
      dsimp only at hloop
      cases hsc : scoreFn iteration rw1.rewrittenText with
      | error e => rw [hsc] at hloop; cases hloop
      | ok s =>
        rw [hsc] at hloop
        dsimp only at hloop
        have hne : st.history ≠ [] := by
          intro hnil
          rw [hnil] at hlen
          simp at hlen
        split at hloop
        · cases hloop
          refine ⟨?_, head?_append_singleton _ hne⟩
          simp only [List.length_append, List.length_cons, List.length_nil]
          omega
        · have := ih (iteration + 1) _ fin (by omega) hloop
            (by
              simp only [List.length_append, List.length_cons, List.length_nil]
              omega)
            rfl
          rcases this with ⟨h1, h2⟩
          exact ⟨h1, h2.trans (head?_append_singleton _ hne)⟩

/-- C8: the session created for an optimization run is always closed in
a cleanup phase that executes on every exit path — whenever session
creation succeeded, the `finally` close is attempted regardless of mode,
body error, or early threshold-met break; the outcome of the close call
never influences the returned result (release failures are logged, not
propagated, so an already-computed result reaches the caller); and no
close is attempted only when no session was ever created. -/
theorem runGrammarlyOptimization_cleanup (b : OptimizerBackend) (input : OptimizeInput) :
    (∀ sid, b.createSession = Except.ok sid →
      (runGrammarlyOptimization b input).closeAttempted = true) ∧
    (∀ del, (runGrammarlyOptimization { b with deleteSession := del } input).result =
      (runGrammarlyOptimization b input).result) ∧
    (∀ e, b.createSession = Except.error e →
      (runGrammarlyOptimization b input).closeAttempted = false) := by
  refine ⟨?_, ?_, ?_⟩
  · intro sid h
    unfold runGrammarlyOptimization
    rw [h]
  · intro del
    rfl
  · intro e h
    unfold runGrammarlyOptimization
    rw [h]

/-- Scenario backend: baseline scores AI 15% / plagiarism 3%, first
rewrite re-scores at AI 8% / plagiarism 3%; closing the session fails. -/
def scenarioBackend : OptimizerBackend where
  createSession := Except.ok "sess".data
  score i _ := if i = 0 then Except.ok ⟨some 15, some 3, []⟩
    else Except.ok ⟨some 8, some 3, []⟩
  rewrite _ t := Except.ok ⟨'r' :: t, "humanized the draft".data⟩
  analyze := Except.ok "analysis".data
  summarize := Except.ok "summary".data
  deleteSession _ := Except.error "close failed".data

/-- Witness for `runGrammarlyOptimization_cleanup`: with a failing
`deleteSession`, the close is still attempted and the computed result
still reaches the caller. -/
theorem runGrammarlyOptimization_cleanup_witness :
    (runGrammarlyOptimization scenarioBackend
      { text := "draft".data, mode := OptimizeMode.optimize,
        max_ai_percent := 10, max_plagiarism_percent := 5,
        max_iterations := 5 }).closeAttempted = true :=
  (runGrammarlyOptimization_cleanup scenarioBackend
    { text := "draft".data, mode := OptimizeMode.optimize,
      max_ai_percent := 10, max_plagiarism_percent := 5,
      max_iterations := 5 }).1 "sess".data rfl

/-- C10: every result returned by `runGrammarlyOptimization` satisfies
`history.length = iterations_used + 1` with `history[0]` the baseline
entry at iteration 0; and in optimize mode, when the baseline scores
miss the thresholds and the rescoring after the iteration-1 rewrite
meets them, the loop stops immediately with `iterations_used = 1`,
`thresholds_met = true` and `history.length = 2`. -/
theorem optimize_history_shape (b : OptimizerBackend) (input : OptimizeInput) :
    (∀ r, (runGrammarlyOptimization b input).result = Except.ok r →
      r.history.length = r.iterations_used + 1 ∧
      ∃ s0, b.score 0 input.text = Except.ok s0 ∧
        r.history.head? = some (baselineEntry s0)) ∧
    (∀ sid s0 rw1 s1 notes,
      input.mode = OptimizeMode.optimize → 1 ≤ input.max_iterations →
      b.createSession = Except.ok sid →
      b.score 0 input.text = Except.ok s0 →
      thresholdsMet s0 input.max_ai_percent input.max_plagiarism_percent = false →
      b.rewrite 1 input.text = Except.ok rw1 →
      b.score 1 rw1.rewrittenText = Except.ok s1 →
      thresholdsMet s1 input.max_ai_percent input.max_plagiarism_percent = true →
      b.summarize = Except.ok notes →
      ∃ r, (runGrammarlyOptimization b input).result = Except.ok r ∧
        r.iterations_used = 1 ∧ r.thresholds_met = true ∧ r.history.length = 2) := by
  constructor
  · intro r hr
    unfold runGrammarlyOptimization at hr
    cases hsess : b.createSession with
    | error e => rw [hsess] at hr; cases hr
    | ok sid =>
      rw [hsess] at hr
      simp only at hr
      unfold runOptimizationBody at hr
      cases hs0 : b.score 0 input.text with
      | error e => rw [hs0] at hr; cases hr
      | ok s0 =>
        rw [hs0] at hr
        dsimp only at hr
        cases hmode : input.mode with
        | score_only =>
          rw [hmode] at hr
          dsimp only at hr
          cases hr
          exact ⟨by simp, s0, rfl, rfl⟩
        | analyze =>
          rw [hmode] at hr
          dsimp only at hr
          cases han : b.analyze with
          | error e => rw [han] at hr; cases hr
          | ok analysis =>
            rw [han] at hr
            dsimp only at hr
            cases hr
            exact ⟨by simp, s0, rfl, rfl⟩
        | optimize =>
          rw [hmode] at hr
          dsimp only at hr
          cases hloop : optimizeLoop b.rewrite b.score input.max_ai_percent
              input.max_plagiarism_percent input.max_iterations 1
              { currentText := input.text,
                lastScores := s0,
                iterationsUsed := 0,
                reachedThresholds := false,
                history := [baselineEntry s0] } with
          | error e => rw [hloop] at hr; cases hr
          | ok fin =>
            rw [hloop] at hr
            dsimp only at hr
            cases hsum : b.summarize with
            | error e => rw [hsum] at hr; cases hr
            | ok notes =>
              rw [hsum] at hr
              dsimp only at hr
              cases hr
              have hinv := optimizeLoop_history_invariant b.rewrite b.score
                input.max_ai_percent input.max_plagiarism_percent input.max_iterations
                (input.max_iterations + 1 - 1) 1 _ fin rfl hloop (by simp) (by simp)
              exact ⟨hinv.1, s0, rfl, hinv.2⟩
  · intro sid s0 rw1 s1 notes hmode hmax hsess hs0 hs0miss hrw1 hs1 hs1meet hsum
    refine
      ⟨{ final_text := rw1.rewrittenText,
         ai_detection_percent := s1.aiDetectionPercent,
         plagiarism_percent := s1.plagiarismPercent,
         iterations_used := 1,
         thresholds_met := true,
         history :=
           [baselineEntry s0,
             { iteration := 1, ai_detection_percent := s1.aiDetectionPercent,
               plagiarism_percent := s1.plagiarismPercent, note := rw1.reasoning }],
         notes := notes }, ?_, rfl, rfl, rfl⟩
    unfold runGrammarlyOptimization
    rw [hsess]
    dsimp only
    unfold runOptimizationBody
    rw [hs0, hmode]
    dsimp only
    unfold optimizeLoop
    rw [dif_neg (by omega : ¬1 > input.max_iterations)]
    dsimp only
    rw [hrw1]
    dsimp only
    rw [hs1]
    dsimp only
    rw [hs1meet, if_pos rfl, hsum]
    rfl

/-- Witness for `optimize_history_shape` on the scenario backend:
baseline AI 15% misses the 10% target, the iteration-1 rescoring at
AI 8% meets it, and the run stops with one iteration and two history
entries. -/
theorem optimize_history_shape_witness :
    ∃ r, (runGrammarlyOptimization scenarioBackend
        { text := "draft".data, mode := OptimizeMode.optimize,
          max_ai_percent := 10, max_plagiarism_percent := 5,
          max_iterations := 5 }).result = Except.ok r ∧
      r.iterations_used = 1 ∧ r.thresholds_met = true ∧ r.history.length = 2 :=
  (optimize_history_shape scenarioBackend
      { text := "draft".data, mode := OptimizeMode.optimize,
        max_ai_percent := 10, max_plagiarism_percent := 5,
        max_iterations := 5 }).2
    "sess".data ⟨some 15, some 3, []⟩ ⟨'r' :: "draft".data, "humanized the draft".data⟩
    ⟨some 8, some 3, []⟩ "summary".data rfl (by decide) rfl rfl (by decide) rfl rfl
    (by decide) rfl

end GrammarlyMcp
